import Mathlib

/-!
Shallow embedding of the lane-runner simulation core (src/index.tsx).

Continuous quantities (positions, velocities, timers, delta time) are
modelled as exact rationals; the JavaScript doubles are treated as exact
arithmetic.  Each phase of the per-frame `animate` body is embedded as a
pure function on an explicit simulation state, mirroring the statement
order of the source.
-/

-- The core rational operations are marked irreducible, which blocks the
-- elaborator-side evaluation done by `decide` on concrete states; proofs
-- still go through the kernel unchanged.
set_option allowUnsafeReducibility true
attribute [semireducible] Rat.add Rat.sub Rat.mul Rat.div Rat.inv
attribute [semireducible] Int.ceil Int.floor Rat.floor FloorRing.ofFloor

namespace RunRun

/-- Game state enum, src/index.tsx line 24. -/
inductive GState where
  | START
  | PLAYING
  | GAMEOVER
deriving DecidableEq, Repr

/-- Obstacle subtype enum, src/index.tsx line 25. -/
inductive ObstacleType where
  | JUMP
  | SLIDE
  | FULL
deriving DecidableEq, Repr

/-- Object category, src/index.tsx line 28. -/
inductive ObjType where
  | OBSTACLE
  | COIN
  | SHIELD
deriving DecidableEq, Repr

/-- A spawned world object (`GameObj`, src/index.tsx lines 26-34); the
`mesh` field is rendering-only and omitted. -/
structure GameObj where
  id : ℕ
  type : ObjType
  subtype : Option ObstacleType
  lane : ℕ
  z : ℚ
  active : Bool
deriving DecidableEq, Repr

-- Configuration constants, src/index.tsx lines 6-21.
def LANES : List ℚ := [-5/2, 0, 5/2]
def LANE_SPEED : ℚ := 25
def GRAVITY : ℚ := 70
def JUMP_FORCE : ℚ := 22
def RUN_SPEED_START : ℚ := 20
def MAX_SPEED : ℚ := 60
def SPEED_INC : ℚ := 4/5
def SLIDE_DURATION : ℚ := 4/5
def SHIELD_DURATION : ℚ := 5
def HIT_Z_MIN : ℚ := -7/10
def HIT_Z_MAX : ℚ := 2/5
def HIT_LANE_DIST : ℚ := 3/5
def JUMP_CLEARANCE : ℚ := 2/5

/-- `LANES[lane]` lookup (lane indices stay in 0..2). -/
def laneX (lane : ℕ) : ℚ := LANES.getD lane 0

/-- Combined simulation state: the `gameData` ref (src/index.tsx lines
252-267) together with the React state that carries gameplay data
(`gameState`, `coins`, `hasShield`, `deathReason`, displayed score). -/
structure Sim where
  gameState : GState
  deathReason : String
  coins : ℕ
  hasShield : Bool
  scoreUI : ℕ
  score : ℚ
  speed : ℚ
  lane : ℕ
  xPos : ℚ
  yPos : ℚ
  velocityY : ℚ
  isJumping : Bool
  isSliding : Bool
  slideTimer : ℚ
  shieldTimer : ℚ
  objects : List GameObj
  segments : List ℚ
deriving DecidableEq, Repr

/-- Initial state: React initial values plus `gameData` initializer
(src/index.tsx lines 242-267). -/
def sim0 : Sim :=
  { gameState := GState.START
    deathReason := ""
    coins := 0
    hasShield := false
    scoreUI := 0
    score := 0
    speed := RUN_SPEED_START
    lane := 1
    xPos := 0
    yPos := 0
    velocityY := 0
    isJumping := false
    isSliding := false
    slideTimer := 0
    shieldTimer := 0
    objects := []
    segments := [] }

/-- Keyboard commands handled by `handleKey` (src/index.tsx lines 518-541). -/
inductive Key where
  | ArrowLeft
  | ArrowRight
  | ArrowUp
  | ArrowDown
deriving DecidableEq, Repr

/-- `handleKey` (src/index.tsx lines 518-541): ignores input outside
PLAYING; lane moves clamp at the bounds; jump only from the ground while
not sliding; down is a fast-fall while airborne, otherwise starts a slide. -/
def handleKey (s : Sim) (k : Key) : Sim :=
  if s.gameState ≠ GState.PLAYING then s
  else
    match k with
    | Key.ArrowLeft => if 0 < s.lane then { s with lane := s.lane - 1 } else s
    | Key.ArrowRight => if s.lane < 2 then { s with lane := s.lane + 1 } else s
    | Key.ArrowUp =>
        if s.isJumping = false ∧ s.isSliding = false then
          { s with velocityY := JUMP_FORCE, isJumping := true }
        else s
    | Key.ArrowDown =>
        if s.isJumping = true then { s with velocityY := -GRAVITY * (1/2) }
        else if s.isSliding = false then
          { s with isSliding := true, slideTimer := SLIDE_DURATION }
        else s

/-- `THREE.MathUtils.lerp`: `(1 - t) * x + t * y`. -/
def lerp (x y t : ℚ) : ℚ := (1 - t) * x + t * y

/-- Lateral update in the PLAYING tick (src/index.tsx lines 630-631):
`xPos = lerp(xPos, LANES[lane], delta * LANE_SPEED)`. -/
def lateralStep (xPos : ℚ) (lane : ℕ) (delta : ℚ) : ℚ :=
  lerp xPos (laneX lane) (delta * LANE_SPEED)

/-- Vertical branch of the PLAYING tick (src/index.tsx lines 633-647):
while jumping, position is updated with the old velocity and then the
velocity loses gravity; touching or crossing the ground clamps and clears.
While sliding the timer counts down with the position pinned to ground;
otherwise the position is pinned to ground. -/
def verticalStep (s : Sim) (delta : ℚ) : Sim :=
  if s.isJumping = true then
    let y1 := s.yPos + s.velocityY * delta
    let v1 := s.velocityY - GRAVITY * delta
    if y1 ≤ 0 then { s with yPos := 0, isJumping := false, velocityY := 0 }
    else { s with yPos := y1, velocityY := v1 }
  else if s.isSliding = true then
    let t1 := s.slideTimer - delta
    if t1 ≤ 0 then { s with slideTimer := t1, yPos := 0, isSliding := false }
    else { s with slideTimer := t1, yPos := 0 }
  else { s with yPos := 0 }

/-- Modelled from the spec: the vertical integrator exactly as §4.2 and
claim C1 word it — "semi-implicit Euler: velocity -= gravity·dt; position
+= velocity·dt", velocity updated first — with the same ground clamp.
Kept for comparison with `verticalStep`, which embeds the source. -/
def verticalStepSpecOrder (s : Sim) (delta : ℚ) : Sim :=
  if s.isJumping = true then
    let v1 := s.velocityY - GRAVITY * delta
    let y1 := s.yPos + v1 * delta
    if y1 ≤ 0 then { s with yPos := 0, isJumping := false, velocityY := 0 }
    else { s with yPos := y1, velocityY := v1 }
  else s

/-- Shield countdown at the top of the PLAYING tick
(src/index.tsx lines 620-627). -/
def shieldCountdown (s : Sim) (delta : ℚ) : Sim :=
  if 0 < s.shieldTimer then
    let t1 := s.shieldTimer - delta
    if t1 ≤ 0 then { s with shieldTimer := t1, hasShield := false }
    else { s with shieldTimer := t1 }
  else s

/-- `startGame` (src/index.tsx lines 772-785): the exact set of fields the
retry/start command writes. -/
def startGame (s : Sim) : Sim :=
  { s with
    scoreUI := 0
    coins := 0
    hasShield := false
    deathReason := ""
    score := 0
    speed := RUN_SPEED_START
    lane := 1
    xPos := 0
    shieldTimer := 0
    gameState := GState.PLAYING }

/-- Obstacle hit determination (src/index.tsx lines 709-719): JUMP is
cleared by `yPos > JUMP_CLEARANCE`, SLIDE by the sliding flag, anything
else always hits. -/
def obstacleHit (yPos : ℚ) (isSliding : Bool) (sub : Option ObstacleType) : Bool :=
  match sub with
  | some ObstacleType.JUMP => !(decide (JUMP_CLEARANCE < yPos))
  | some ObstacleType.SLIDE => !isSliding
  | _ => true

/-- Death reason per obstacle subtype (src/index.tsx lines 710-718). -/
def obstacleReason : Option ObstacleType → String
  | some ObstacleType.JUMP => "TRIPPED ON LOG"
  | some ObstacleType.SLIDE => "HIT HEAD ON GATE"
  | _ => "SMASHED INTO WALL"

/-- An object that, at its current position, is an obstacle inside the
hit window, laterally aligned, and whose clearance rule fails against the
given player pose. -/
def lethalB (xPos yPos : ℚ) (isSliding : Bool) (o : GameObj) : Bool :=
  decide (o.type = ObjType.OBSTACLE)
  && decide (HIT_Z_MIN < o.z) && decide (o.z < HIT_Z_MAX)
  && decide (|xPos - laneX o.lane| < HIT_LANE_DIST)
  && obstacleHit yPos isSliding o.subtype

/-- One iteration of the object loop (src/index.tsx lines 681-737):
skip inactive, advance by the scroll distance, cull past z = 25,
otherwise keep the object and resolve collision if inside the hit window
and laterally aligned.  Objects deactivated by collision are kept for
this tick (the source pushes before resolving) and dropped next tick. -/
def stepObj (moveZ : ℚ) (acc : Sim × List GameObj) (obj : GameObj) : Sim × List GameObj :=
  let s := acc.1
  let kept := acc.2
  if obj.active = false then (s, kept)
  else
    let z1 := obj.z + moveZ
    if 25 < z1 then (s, kept)
    else
      let o1 := { obj with z := z1 }
      if HIT_Z_MIN < z1 ∧ z1 < HIT_Z_MAX then
        if |s.xPos - laneX o1.lane| < HIT_LANE_DIST then
          match o1.type with
          | ObjType.COIN =>
              ({ s with coins := s.coins + 1 }, kept ++ [{ o1 with active := false }])
          | ObjType.SHIELD =>
              ({ s with shieldTimer := SHIELD_DURATION, hasShield := true },
               kept ++ [{ o1 with active := false }])
          | ObjType.OBSTACLE =>
              if obstacleHit s.yPos s.isSliding o1.subtype = true then
                if 0 < s.shieldTimer then (s, kept ++ [{ o1 with active := false }])
                else
                  ({ s with gameState := GState.GAMEOVER,
                            deathReason := obstacleReason o1.subtype },
                   kept ++ [o1])
              else (s, kept ++ [o1])
        else (s, kept ++ [o1])
      else (s, kept ++ [o1])

/-- The whole object pass of a PLAYING tick (src/index.tsx lines 680-738):
fold `stepObj` over the current object list, then replace the list with
the surviving objects. -/
def processObjects (s : Sim) (moveZ : ℚ) : Sim :=
  let r := s.objects.foldl (stepObj moveZ) (s, [])
  { r.1 with objects := r.2 }

/-- Upper bound on the number of iterations of the segment-extension
loop starting from farthest position `z`: each iteration moves 20 closer
to the -160 boundary. -/
def extendCount (z : ℚ) : ℕ := (⌈(z + 160) / 20⌉).toNat

/-- Fuelled form of the extension loop body (src/index.tsx lines 675-677):
`while (farthest > -160) spawnSegment(farthest - 20)`; returns the list of
newly created segment positions in creation order. -/
def extendSegsAux : ℕ → ℚ → List ℚ
  | 0, _ => []
  | n + 1, z => if -160 < z then (z - 20) :: extendSegsAux n (z - 20) else []

/-- The extension loop with enough fuel to run to completion. -/
def extendSegs (z : ℚ) : List ℚ := extendSegsAux (extendCount z) z

/-- Fuelled form of the `initWorld` loop (src/index.tsx lines 509-513):
`z = 80; while (z > -160) { spawnSegment(z); z -= 20 }`. -/
def initSegsAux : ℕ → ℚ → List ℚ
  | 0, _ => []
  | n + 1, z => if -160 < z then z :: initSegsAux n (z - 20) else []

/-- Segment positions created by `initWorld`. -/
def initSegs : List ℚ := initSegsAux (extendCount 80 + 1) 80

/-- Segment phase of a PLAYING tick (src/index.tsx lines 667-677): scroll
every segment by `moveZ`, drop the front segment if it passed z = 80, then
extend at the far end until the farthest segment is at or beyond -160. -/
def tickSegs (segs : List ℚ) (moveZ : ℚ) : List ℚ :=
  let moved := segs.map (fun z => z + moveZ)
  let pruned := if 80 < moved.headD 0 then moved.tail else moved
  pruned ++ extendSegs (pruned.getLastD 0)

/-- Consecutive positions differ by exactly one segment length (20),
front-to-back. -/
def spacedBy20 : List ℚ → Bool
  | [] => true
  | [_] => true
  | a :: b :: t => decide (b = a - 20) && spacedBy20 (b :: t)

/-- The nested subtype draw of the single-obstacle layout
(src/index.tsx line 481): `r2 > 0.6 ? FULL : (r3 > 0.5 ? JUMP : SLIDE)`.
Generic over the ordered field so the same definition is used both
executably on ℚ and in measure statements on ℝ. -/
def subtypeDraw {α : Type} [LinearOrderedField α] (r2 r3 : α) : ObstacleType :=
  if 3/5 < r2 then ObstacleType.FULL
  else if 1/2 < r3 then ObstacleType.JUMP
  else ObstacleType.SLIDE

/-- The lane draw (src/index.tsx line 480): `Math.floor(r * 3)`. -/
def laneDraw {α : Type} [LinearOrderedField α] [FloorRing α] (r : α) : ℤ :=
  ⌊r * 3⌋

/-- A jumping state used to separate the two integration orders. -/
def gdC1 : Sim := { sim0 with isJumping := true, yPos := 1, velocityY := 0 }

/-- A mid-jump game-over state used against the reset claim. -/
def gdC3 : Sim :=
  { sim0 with gameState := GState.GAMEOVER, isJumping := true, yPos := 3,
              velocityY := -4 }

/-- A SLIDE obstacle sitting at the player's lane in the hit window. -/
def objSlideC6 : GameObj :=
  { id := 0, type := ObjType.OBSTACLE, subtype := some ObstacleType.SLIDE,
    lane := 1, z := 0, active := true }

/-- A PLAYING state that is mid-jump (airborne, not sliding) with the
SLIDE obstacle as the only live object. -/
def gdC6 : Sim :=
  { sim0 with gameState := GState.PLAYING, isJumping := true, yPos := 3,
              velocityY := 1, objects := [objSlideC6] }

/-- First obstacle of the C9 scenario: a FULL wall at the player's lane. -/
def objFullC9 : GameObj :=
  { id := 0, type := ObjType.OBSTACLE, subtype := some ObstacleType.FULL,
    lane := 1, z := 0, active := true }

/-- Second object of the C9 scenario: a coin at the player's lane. -/
def objCoinC9 : GameObj :=
  { id := 1, type := ObjType.COIN, subtype := none, lane := 1, z := 0,
    active := true }

/-- Third object of the C9 scenario: a JUMP obstacle at the player's lane. -/
def objJumpC9 : GameObj :=
  { id := 2, type := ObjType.OBSTACLE, subtype := some ObstacleType.JUMP,
    lane := 1, z := 0, active := true }

/-- The C9 scenario state: PLAYING, centered, grounded, unshielded. -/
def gdC9 : Sim :=
  { sim0 with gameState := GState.PLAYING,
              objects := [objFullC9, objCoinC9, objJumpC9] }

/-- The obstacle the C5 witness absorbs. -/
def objFullC5 : GameObj :=
  { id := 0, type := ObjType.OBSTACLE, subtype := some ObstacleType.FULL,
    lane := 1, z := 0, active := true }

/-- A shielded PLAYING state with a lethal wall in the hit window. -/
def gdC5 : Sim :=
  { sim0 with gameState := GState.PLAYING, shieldTimer := 2,
              objects := [objFullC5] }

/-- A concrete airborne PLAYING state. -/
def gdC10 : Sim :=
  { sim0 with gameState := GState.PLAYING, isJumping := true, yPos := 2,
              velocityY := 22 }

/-! ## Theorems -/

/-- C1, counterexample: at a concrete jumping state the source's update
(position first, with the pre-update velocity) differs from the claimed
semi-implicit order (velocity first): the code keeps yPos = 1 for one tick
while the claimed order would give yPos = 3/10. -/
theorem c1_counterexample :
    gdC1.isJumping = true
    ∧ (verticalStep gdC1 (1/10)).yPos ≠ (verticalStepSpecOrder gdC1 (1/10)).yPos := by
  decide

/-- C1, amended: while jumping, each tick first updates the position with
the pre-update velocity (`yPos += velocityY * dt`) and then applies gravity
to the velocity (`velocityY -= GRAVITY * dt`); whenever the resulting
position reaches or crosses ground level it is clamped to 0 and both the
jumping flag and the vertical velocity are cleared. -/
theorem c1_vertical_step_position_first (s : Sim) (d : ℚ) (hj : s.isJumping = true) :
    (verticalStep s d).yPos = max 0 (s.yPos + s.velocityY * d)
    ∧ ((verticalStep s d).isJumping = true ↔ 0 < s.yPos + s.velocityY * d)
    ∧ (verticalStep s d).velocityY =
        (if s.yPos + s.velocityY * d ≤ 0 then 0 else s.velocityY - GRAVITY * d) := by
  simp only [verticalStep, hj, if_true]
  split_ifs with h
  · exact ⟨(max_eq_left h).symm, by simp_all, rfl⟩
  · exact ⟨(max_eq_right (show (0:ℚ) ≤ s.yPos + s.velocityY * d by linarith)).symm,
      by simp_all, rfl⟩

/-- C1, witness for the amended theorem at a concrete jumping state. -/
theorem c1_witness :
    (verticalStep gdC1 (1/10)).yPos = max 0 (gdC1.yPos + gdC1.velocityY * (1/10))
    ∧ ((verticalStep gdC1 (1/10)).isJumping = true
        ↔ 0 < gdC1.yPos + gdC1.velocityY * (1/10))
    ∧ (verticalStep gdC1 (1/10)).velocityY =
        (if gdC1.yPos + gdC1.velocityY * (1/10) ≤ 0 then 0
         else gdC1.velocityY - GRAVITY * (1/10)) :=
  c1_vertical_step_position_first gdC1 (1/10) rfl

/-- C2, counterexample: dt = 1/10 is inside the claimed clamped range, yet
from xPos = 0 toward the left lane (offset -5/2) the lerp factor is
dt * LANE_SPEED = 5/2 > 1 and the tick lands at -25/4, overshooting the
target and increasing the distance to it. -/
theorem c2_counterexample :
    (0:ℚ) ≤ 1/10 ∧ (1/10:ℚ) ≤ 1/10
    ∧ ¬ (|lateralStep 0 0 (1/10) - laneX 0| ≤ |(0:ℚ) - laneX 0|) := by
  decide

/-- C2, amended: the no-snap/no-overshoot property holds exactly when the
lerp factor dt * LANE_SPEED is at most 1 (dt ≤ 1/25): then the distance to
the target lane offset is non-increasing and the position never crosses
the target; for larger clamped dt (up to 1/10) the factor exceeds 1 and
the tick can overshoot. -/
theorem c2_lateral_no_overshoot_small_dt (x : ℚ) (lane : ℕ) (d : ℚ)
    (h0 : 0 ≤ d) (h1 : d * LANE_SPEED ≤ 1) :
    |lateralStep x lane d - laneX lane| ≤ |x - laneX lane|
    ∧ (x ≤ laneX lane → lateralStep x lane d ≤ laneX lane)
    ∧ (laneX lane ≤ x → laneX lane ≤ lateralStep x lane d) := by
  have ht0 : 0 ≤ d * LANE_SPEED := mul_nonneg h0 (by norm_num [LANE_SPEED])
  have key : lateralStep x lane d - laneX lane
      = (1 - d * LANE_SPEED) * (x - laneX lane) := by
    unfold lateralStep lerp
    ring
  refine ⟨?_, ?_, ?_⟩
  · rw [key, abs_mul]
    have habs : |1 - d * LANE_SPEED| ≤ 1 := abs_le.mpr ⟨by linarith, by linarith⟩
    calc |1 - d * LANE_SPEED| * |x - laneX lane|
        ≤ 1 * |x - laneX lane| :=
          mul_le_mul_of_nonneg_right habs (abs_nonneg _)
      _ = |x - laneX lane| := one_mul _
  · intro hx
    have h2 : (1 - d * LANE_SPEED) * (x - laneX lane) ≤ 0 :=
      mul_nonpos_iff.mpr (Or.inl ⟨by linarith, by linarith⟩)
    linarith [key ▸ h2]
  · intro hx
    have h2 : 0 ≤ (1 - d * LANE_SPEED) * (x - laneX lane) :=
      mul_nonneg (by linarith) (by linarith)
    linarith [key ▸ h2]

/-- C2, witness for the amended theorem: dt = 1/50 gives factor 1/2. -/
theorem c2_witness :
    |lateralStep 0 0 (1/50) - laneX 0| ≤ |(0:ℚ) - laneX 0|
    ∧ ((0:ℚ) ≤ laneX 0 → lateralStep 0 0 (1/50) ≤ laneX 0)
    ∧ (laneX 0 ≤ (0:ℚ) → laneX 0 ≤ lateralStep 0 0 (1/50)) :=
  c2_lateral_no_overshoot_small_dt 0 0 (1/50) (by norm_num)
    (by norm_num [LANE_SPEED])

/-- C3, counterexample: retrying from a state that died mid-jump leaves
the jumping flag, the vertical position and the vertical velocity exactly
as they were — `startGame` does not reset them. -/
theorem c3_counterexample :
    (startGame gdC3).isJumping = true
    ∧ (startGame gdC3).yPos = 3
    ∧ (startGame gdC3).velocityY = -4 := by
  decide

/-- C3, amended: the start/retry command resets score (both the
accumulator and the displayed value), coin count, shield flag and timer,
death reason, lane to center, lateral position and speed, and enters
PLAYING — but it leaves the vertical position, the vertical velocity, the
jumping and sliding flags and the slide timer unchanged. -/
theorem c3_start_game_resets (s : Sim) :
    (startGame s).score = 0 ∧ (startGame s).scoreUI = 0
    ∧ (startGame s).coins = 0 ∧ (startGame s).hasShield = false
    ∧ (startGame s).shieldTimer = 0 ∧ (startGame s).deathReason = ""
    ∧ (startGame s).lane = 1 ∧ (startGame s).xPos = 0
    ∧ (startGame s).speed = RUN_SPEED_START
    ∧ (startGame s).gameState = GState.PLAYING
    ∧ (startGame s).yPos = s.yPos
    ∧ (startGame s).velocityY = s.velocityY
    ∧ (startGame s).isJumping = s.isJumping
    ∧ (startGame s).isSliding = s.isSliding
    ∧ (startGame s).slideTimer = s.slideTimer := by
  refine ⟨rfl, rfl, rfl, rfl, rfl, rfl, rfl, rfl, rfl, rfl, rfl, rfl, rfl, rfl, rfl⟩

/-- Any single key press keeps the lane index within [0, 2]. -/
lemma handleKey_lane_le (s : Sim) (k : Key) (h : s.lane ≤ 2) :
    (handleKey s k).lane ≤ 2 := by
  cases k <;> simp only [handleKey] <;> split_ifs <;> (try simp_all) <;> omega

/-- C7: any sequence of commands keeps the lane index within [0, 2], and
lane-left at index 0 (or lane-right at index 2) leaves the whole state
unchanged. -/
theorem c7_lane_bounds (s : Sim) (ks : List Key) (h : s.lane ≤ 2) :
    (ks.foldl handleKey s).lane ≤ 2
    ∧ (s.lane = 0 → handleKey s Key.ArrowLeft = s)
    ∧ (s.lane = 2 → handleKey s Key.ArrowRight = s) := by
  refine ⟨?_, ?_, ?_⟩
  · induction ks generalizing s with
    | nil => exact h
    | cons k ks ih =>
        exact ih (handleKey s k) (handleKey_lane_le s k h)
  · intro h0
    simp [handleKey, h0]
  · intro h2
    simp [handleKey, h2]

/-- C7, witness: a concrete run of lane commands from the initial state. -/
theorem c7_witness :
    (([Key.ArrowRight, Key.ArrowRight, Key.ArrowRight,
       Key.ArrowLeft] : List Key).foldl handleKey sim0).lane ≤ 2
    ∧ (sim0.lane = 0 → handleKey sim0 Key.ArrowLeft = sim0)
    ∧ (sim0.lane = 2 → handleKey sim0 Key.ArrowRight = sim0) :=
  c7_lane_bounds sim0 [Key.ArrowRight, Key.ArrowRight, Key.ArrowRight,
    Key.ArrowLeft] (by decide)

/-- C10: the duck command while airborne writes the fixed velocity
-GRAVITY * (1/2) (an absolute assignment, not a relative boost), so a
second duck with no tick in between produces the identical state. -/
theorem c10_duck_airborne (s : Sim) (hgs : s.gameState = GState.PLAYING)
    (hj : s.isJumping = true) :
    handleKey s Key.ArrowDown = { s with velocityY := -GRAVITY * (1/2) }
    ∧ handleKey (handleKey s Key.ArrowDown) Key.ArrowDown
        = handleKey s Key.ArrowDown := by
  have h1 : handleKey s Key.ArrowDown = { s with velocityY := -GRAVITY * (1/2) } := by
    simp [handleKey, hgs, hj]
  refine ⟨h1, ?_⟩
  rw [h1]
  simp [handleKey, hgs, hj]

/-- C10, witness at a concrete airborne state. -/
theorem c10_witness :
    handleKey gdC10 Key.ArrowDown = { gdC10 with velocityY := -GRAVITY * (1/2) }
    ∧ handleKey (handleKey gdC10 Key.ArrowDown) Key.ArrowDown
        = handleKey gdC10 Key.ArrowDown :=
  c10_duck_airborne gdC10 rfl rfl

/-- C6: a laterally aligned SLIDE obstacle inside the hit window is
avoided exactly when the sliding flag is set at that tick — the player's
vertical position plays no role (no hypothesis constrains it, so a jumping
player is hit) — and absent a shield the hit transitions to GAMEOVER and
records the SLIDE death reason. -/
theorem c6_slide_gate (s : Sim) (o : GameObj) (m : ℚ)
    (hobj : s.objects = [o]) (hact : o.active = true)
    (htyp : o.type = ObjType.OBSTACLE) (hsub : o.subtype = some ObstacleType.SLIDE)
    (hz1 : HIT_Z_MIN < o.z + m) (hz2 : o.z + m < HIT_Z_MAX)
    (hal : |s.xPos - laneX o.lane| < HIT_LANE_DIST)
    (hsh : s.shieldTimer ≤ 0) (hgs : s.gameState = GState.PLAYING) :
    ((processObjects s m).gameState = GState.GAMEOVER ↔ s.isSliding = false)
    ∧ (s.isSliding = false → (processObjects s m).deathReason = "HIT HEAD ON GATE") := by
  have hcull : ¬ 25 < o.z + m := by
    have hmax : HIT_Z_MAX ≤ 25 := by norm_num [HIT_Z_MAX]
    push_neg
    linarith
  have hsh' : ¬ 0 < s.shieldTimer := not_lt.mpr hsh
  by_cases hsl : s.isSliding
  · simp [processObjects, hobj, stepObj, hact, htyp, hsub, hal, hz1, hz2, hcull,
      hsl, hgs, obstacleHit]
  · simp only [Bool.not_eq_true] at hsl
    simp [processObjects, hobj, stepObj, hact, htyp, hsub, hal, hz1, hz2, hcull,
      hsl, hsh', obstacleHit, obstacleReason]

/-- C6, witness: the airborne (yPos = 3) non-sliding player is hit by the
SLIDE obstacle and the SLIDE death reason is recorded. -/
theorem c6_witness :
    ((processObjects gdC6 0).gameState = GState.GAMEOVER ↔ gdC6.isSliding = false)
    ∧ (gdC6.isSliding = false
        → (processObjects gdC6 0).deathReason = "HIT HEAD ON GATE") :=
  c6_slide_gate gdC6 objSlideC6 0 rfl rfl rfl rfl (by norm_num [HIT_Z_MIN, objSlideC6])
    (by norm_num [HIT_Z_MAX, objSlideC6])
    (by norm_num [gdC6, sim0, objSlideC6, laneX, LANES, HIT_LANE_DIST])
    (by norm_num [gdC6, sim0]) rfl

/-- C9: the object loop does not stop after an unshielded hit: with an
aligned FULL wall, then a coin, then an aligned JUMP obstacle all in the
hit window of one tick, the first hit alone already yields GAMEOVER with
the wall's reason, yet the full pass still collects the coin (coins + 1)
and the later obstacle re-runs the game-over effects, overwriting the
death reason with the JUMP obstacle's reason. -/
theorem c9_loop_continues_after_gameover (s : Sim)
    (hx : s.xPos = 0) (hy : s.yPos = 0) (hsh : s.shieldTimer ≤ 0)
    (hobj : s.objects = [objFullC9, objCoinC9, objJumpC9]) :
    (processObjects s 0).gameState = GState.GAMEOVER
    ∧ (processObjects s 0).coins = s.coins + 1
    ∧ (processObjects s 0).deathReason = "TRIPPED ON LOG"
    ∧ (List.foldl (stepObj 0) (s, []) [objFullC9]).1.gameState = GState.GAMEOVER
    ∧ (List.foldl (stepObj 0) (s, []) [objFullC9]).1.deathReason
        = "SMASHED INTO WALL" := by
  have hsh' : ¬ 0 < s.shieldTimer := not_lt.mpr hsh
  refine ⟨?_, ?_, ?_, ?_, ?_⟩ <;>
    norm_num [processObjects, hobj, stepObj, obstacleHit, obstacleReason,
      objFullC9, objCoinC9, objJumpC9, laneX, LANES, HIT_Z_MIN, HIT_Z_MAX,
      HIT_LANE_DIST, JUMP_CLEARANCE, hx, hy, hsh']

/-- C9, witness at the concrete scenario state. -/
theorem c9_witness :
    (processObjects gdC9 0).gameState = GState.GAMEOVER
    ∧ (processObjects gdC9 0).coins = gdC9.coins + 1
    ∧ (processObjects gdC9 0).deathReason = "TRIPPED ON LOG"
    ∧ (List.foldl (stepObj 0) (gdC9, []) [objFullC9]).1.gameState = GState.GAMEOVER
    ∧ (List.foldl (stepObj 0) (gdC9, []) [objFullC9]).1.deathReason
        = "SMASHED INTO WALL" :=
  c9_loop_continues_after_gameover gdC9 rfl rfl (by norm_num [gdC9, sim0]) rfl

/-- `stepObj` skips an inactive object. -/
lemma stepObj_skip (m : ℚ) (a : Sim) (kept : List GameObj) (x : GameObj)
    (h : x.active = false) : stepObj m (a, kept) x = (a, kept) := by
  simp [stepObj, h]

/-- `stepObj` culls an object that moved past z = 25. -/
lemma stepObj_cull (m : ℚ) (a : Sim) (kept : List GameObj) (x : GameObj)
    (h : ¬ x.active = false) (h2 : 25 < x.z + m) :
    stepObj m (a, kept) x = (a, kept) := by
  simp [stepObj, h, h2]

/-- `stepObj` keeps an object outside the hit window untouched. -/
lemma stepObj_miss_window (m : ℚ) (a : Sim) (kept : List GameObj) (x : GameObj)
    (h : ¬ x.active = false) (h2 : ¬ 25 < x.z + m)
    (h3 : ¬ (HIT_Z_MIN < x.z + m ∧ x.z + m < HIT_Z_MAX)) :
    stepObj m (a, kept) x = (a, kept ++ [{ x with z := x.z + m }]) := by
  simp [stepObj, h, h2, h3]

/-- `stepObj` keeps an unaligned object untouched. -/
lemma stepObj_miss_lane (m : ℚ) (a : Sim) (kept : List GameObj) (x : GameObj)
    (h : ¬ x.active = false) (h2 : ¬ 25 < x.z + m)
    (h3 : HIT_Z_MIN < x.z + m ∧ x.z + m < HIT_Z_MAX)
    (h4 : ¬ |a.xPos - laneX x.lane| < HIT_LANE_DIST) :
    stepObj m (a, kept) x = (a, kept ++ [{ x with z := x.z + m }]) := by
  simp [stepObj, h, h2, h3, h4]

/-- `stepObj` on an aligned coin in the window: collect it. -/
lemma stepObj_coin (m : ℚ) (a : Sim) (kept : List GameObj) (x : GameObj)
    (h : ¬ x.active = false) (h2 : ¬ 25 < x.z + m)
    (h3 : HIT_Z_MIN < x.z + m ∧ x.z + m < HIT_Z_MAX)
    (h4 : |a.xPos - laneX x.lane| < HIT_LANE_DIST)
    (hty : x.type = ObjType.COIN) :
    stepObj m (a, kept) x
      = ({ a with coins := a.coins + 1 },
         kept ++ [{ x with z := x.z + m, active := false }]) := by
  simp [stepObj, h, h2, h3, h4, hty]

/-- `stepObj` on an aligned, hit obstacle while the shield timer is
positive: absorb, deactivate, leave the state otherwise alone. -/
lemma stepObj_obstacle_absorb (m : ℚ) (a : Sim) (kept : List GameObj) (x : GameObj)
    (h : ¬ x.active = false) (h2 : ¬ 25 < x.z + m)
    (h3 : HIT_Z_MIN < x.z + m ∧ x.z + m < HIT_Z_MAX)
    (h4 : |a.xPos - laneX x.lane| < HIT_LANE_DIST)
    (hty : x.type = ObjType.OBSTACLE)
    (hhit : obstacleHit a.yPos a.isSliding x.subtype = true)
    (hτ : 0 < a.shieldTimer) :
    stepObj m (a, kept) x
      = (a, kept ++ [{ x with z := x.z + m, active := false }]) := by
  simp [stepObj, h, h2, h3, h4, hty, hhit, hτ]

/-- `stepObj` on an aligned obstacle whose clearance rule succeeds. -/
lemma stepObj_obstacle_clear (m : ℚ) (a : Sim) (kept : List GameObj) (x : GameObj)
    (h : ¬ x.active = false) (h2 : ¬ 25 < x.z + m)
    (h3 : HIT_Z_MIN < x.z + m ∧ x.z + m < HIT_Z_MAX)
    (h4 : |a.xPos - laneX x.lane| < HIT_LANE_DIST)
    (hty : x.type = ObjType.OBSTACLE)
    (hhit : ¬ obstacleHit a.yPos a.isSliding x.subtype = true) :
    stepObj m (a, kept) x = (a, kept ++ [{ x with z := x.z + m }]) := by
  simp [stepObj, h, h2, h3, h4, hty, hhit]

/-- One `stepObj` iteration under a positive shield timer and a non-shield
object: the threaded player fields are untouched, the state cannot leave
its current game state, and any kept object that is lethal against the
player's pose has been deactivated. -/
lemma stepObj_shield_inv (m : ℚ) (a : Sim) (kept : List GameObj) (x : GameObj)
    (hτ : 0 < a.shieldTimer) (hx : x.type ≠ ObjType.SHIELD) :
    (stepObj m (a, kept) x).1.shieldTimer = a.shieldTimer
    ∧ (stepObj m (a, kept) x).1.gameState = a.gameState
    ∧ (stepObj m (a, kept) x).1.xPos = a.xPos
    ∧ (stepObj m (a, kept) x).1.yPos = a.yPos
    ∧ (stepObj m (a, kept) x).1.isSliding = a.isSliding
    ∧ ∀ o ∈ (stepObj m (a, kept) x).2,
        o ∈ kept ∨ (lethalB a.xPos a.yPos a.isSliding o = true → o.active = false) := by
  by_cases h1 : x.active = false
  · rw [stepObj_skip m a kept x h1]
    exact ⟨rfl, rfl, rfl, rfl, rfl, fun o ho => Or.inl ho⟩
  by_cases h2 : 25 < x.z + m
  · rw [stepObj_cull m a kept x h1 h2]
    exact ⟨rfl, rfl, rfl, rfl, rfl, fun o ho => Or.inl ho⟩
  by_cases h3 : HIT_Z_MIN < x.z + m ∧ x.z + m < HIT_Z_MAX
  case neg =>
    rw [stepObj_miss_window m a kept x h1 h2 h3]
    refine ⟨rfl, rfl, rfl, rfl, rfl, fun o ho => ?_⟩
    rcases List.mem_append.mp ho with hk | hk
    · exact Or.inl hk
    · simp only [List.mem_singleton] at hk
      subst hk
      refine Or.inr (fun hlb => absurd ?_ h3)
      simp only [lethalB, Bool.and_eq_true, decide_eq_true_eq] at hlb
      exact ⟨hlb.1.1.1.2, hlb.1.1.2⟩
  by_cases h4 : |a.xPos - laneX x.lane| < HIT_LANE_DIST
  case neg =>
    rw [stepObj_miss_lane m a kept x h1 h2 h3 h4]
    refine ⟨rfl, rfl, rfl, rfl, rfl, fun o ho => ?_⟩
    rcases List.mem_append.mp ho with hk | hk
    · exact Or.inl hk
    · simp only [List.mem_singleton] at hk
      subst hk
      refine Or.inr (fun hlb => absurd ?_ h4)
      simp only [lethalB, Bool.and_eq_true, decide_eq_true_eq] at hlb
      exact hlb.1.2
  rcases hty : x.type with _ | _ | _
  · -- OBSTACLE
    by_cases hhit : obstacleHit a.yPos a.isSliding x.subtype = true
    · rw [stepObj_obstacle_absorb m a kept x h1 h2 h3 h4 hty hhit hτ]
      refine ⟨rfl, rfl, rfl, rfl, rfl, fun o ho => ?_⟩
      rcases List.mem_append.mp ho with hk | hk
      · exact Or.inl hk
      · simp only [List.mem_singleton] at hk
        subst hk
        exact Or.inr (fun _ => rfl)
    · rw [stepObj_obstacle_clear m a kept x h1 h2 h3 h4 hty hhit]
      refine ⟨rfl, rfl, rfl, rfl, rfl, fun o ho => ?_⟩
      rcases List.mem_append.mp ho with hk | hk
      · exact Or.inl hk
      · simp only [List.mem_singleton] at hk
        subst hk
        refine Or.inr (fun hlb => absurd ?_ hhit)
        simp only [lethalB, Bool.and_eq_true, decide_eq_true_eq] at hlb
        exact hlb.2
  · -- COIN
    rw [stepObj_coin m a kept x h1 h2 h3 h4 hty]
    refine ⟨rfl, rfl, rfl, rfl, rfl, fun o ho => ?_⟩
    rcases List.mem_append.mp ho with hk | hk
    · exact Or.inl hk
    · simp only [List.mem_singleton] at hk
      subst hk
      exact Or.inr (fun _ => rfl)
  · -- SHIELD
    exact absurd hty hx

/-- The object fold under a positive shield timer with no shield pickups
in the list: the shield timer and the game state come out unchanged, the
pose fields are untouched, and every kept lethal object is deactivated. -/
lemma foldl_shield_inv (m : ℚ) :
    ∀ (l : List GameObj) (a : Sim) (kept : List GameObj),
      0 < a.shieldTimer → (∀ o ∈ l, o.type ≠ ObjType.SHIELD) →
      (l.foldl (stepObj m) (a, kept)).1.shieldTimer = a.shieldTimer
      ∧ (l.foldl (stepObj m) (a, kept)).1.gameState = a.gameState
      ∧ (l.foldl (stepObj m) (a, kept)).1.xPos = a.xPos
      ∧ (l.foldl (stepObj m) (a, kept)).1.yPos = a.yPos
      ∧ (l.foldl (stepObj m) (a, kept)).1.isSliding = a.isSliding
      ∧ ∀ o ∈ (l.foldl (stepObj m) (a, kept)).2,
          o ∈ kept ∨ (lethalB a.xPos a.yPos a.isSliding o = true → o.active = false)
  | [], a, kept, _, _ => ⟨rfl, rfl, rfl, rfl, rfl, fun o ho => Or.inl ho⟩
  | x :: l, a, kept, hτ, hl => by
      obtain ⟨e1, e2, e3, e4, e5, hmem⟩ :=
        stepObj_shield_inv m a kept x hτ (hl x (List.mem_cons_self x l))
      have hτ1 : 0 < (stepObj m (a, kept) x).1.shieldTimer := by
        rw [e1]
        exact hτ
      obtain ⟨i1, i2, i3, i4, i5, imem⟩ :=
        foldl_shield_inv m l (stepObj m (a, kept) x).1 (stepObj m (a, kept) x).2
          hτ1 (fun o ho => hl o (List.mem_cons_of_mem x ho))
      rw [List.foldl_cons]
      refine ⟨i1.trans e1, i2.trans e2, i3.trans e3, i4.trans e4, i5.trans e5,
        fun o ho => ?_⟩
      rcases imem o ho with hk | hk
      · exact hmem o hk
      · refine Or.inr (fun hlb => hk ?_)
        rw [e3, e4, e5]
        exact hlb

/-- C5: while the shield timer is positive (and no shield pickup occurs in
the same pass), resolving any number of aligned obstacle hits in one tick
leaves the game state and the shield timer exactly as they were, and every
surviving object that was a lethal aligned obstacle has been deactivated;
separately, the timer's own countdown is the only thing that decreases it,
by exactly the frame delta. -/
theorem c5_shield_absorb (s : Sim) (m d : ℚ)
    (hτ : 0 < s.shieldTimer)
    (hns : ∀ o ∈ s.objects, o.type ≠ ObjType.SHIELD) :
    (processObjects s m).gameState = s.gameState
    ∧ (processObjects s m).shieldTimer = s.shieldTimer
    ∧ (∀ o ∈ (processObjects s m).objects,
        lethalB s.xPos s.yPos s.isSliding o = true → o.active = false)
    ∧ (shieldCountdown s d).shieldTimer = s.shieldTimer - d := by
  obtain ⟨e1, e2, _, _, _, hmem⟩ := foldl_shield_inv m s.objects s [] hτ hns
  refine ⟨e2, e1, fun o ho => ?_, ?_⟩
  · rcases hmem o ho with hk | hk
    · exact absurd hk (List.not_mem_nil o)
    · exact hk
  · simp only [shieldCountdown, if_pos hτ]
    split_ifs <;> rfl

/-- C5, witness: the shielded state absorbs the wall. -/
theorem c5_witness :
    (processObjects gdC5 0).gameState = gdC5.gameState
    ∧ (processObjects gdC5 0).shieldTimer = gdC5.shieldTimer
    ∧ (∀ o ∈ (processObjects gdC5 0).objects,
        lethalB gdC5.xPos gdC5.yPos gdC5.isSliding o = true → o.active = false)
    ∧ (shieldCountdown gdC5 (1/10)).shieldTimer = gdC5.shieldTimer - 1/10 :=
  c5_shield_absorb gdC5 0 (1/10) (by norm_num [gdC5, sim0]) (by decide)

/-- The extension loop's fuel drops by exactly one per iteration. -/
lemma extendCount_pos (z : ℚ) (h : -160 < z) :
    extendCount z = extendCount (z - 20) + 1 := by
  unfold extendCount
  have e : (z - 20 + 160) / 20 = (z + 160) / 20 - ((1:ℤ) : ℚ) := by
    push_cast
    ring
  rw [e, Int.ceil_sub_int]
  have hpos : 0 < ⌈(z + 160) / 20⌉ :=
    Int.ceil_pos.mpr (div_pos (by linarith) (by norm_num))
  omega

/-- The extension loop does nothing at or beyond the lookahead boundary. -/
lemma extendSegs_stop (z : ℚ) (h : ¬ -160 < z) : extendSegs z = [] := by
  unfold extendSegs
  cases extendCount z <;> simp [extendSegsAux, h]

/-- One unfolding of the extension loop: the new segment is created at
farthest - 20 and the loop continues from there. -/
lemma extendSegs_go (z : ℚ) (h : -160 < z) :
    extendSegs z = (z - 20) :: extendSegs (z - 20) := by
  unfold extendSegs
  rw [extendCount_pos z h]
  simp [extendSegsAux, h]

/-- Splits a true Boolean conjunction. -/
lemma bool_and_split {a b : Bool} (h : (a && b) = true) : a = true ∧ b = true := by
  simp only [Bool.and_eq_true] at h
  exact h

/-- Joins two true Booleans into a conjunction. -/
lemma bool_and_join {a b : Bool} (h1 : a = true) (h2 : b = true) :
    (a && b) = true := by
  simp [h1, h2]

/-- Whatever the fuel, the generated positions descend in steps of 20
from the seed. -/
lemma spaced_cons_extendAux :
    ∀ (n : ℕ) (z : ℚ), spacedBy20 (z :: extendSegsAux n z) = true
  | 0, _ => rfl
  | n + 1, z => by
      by_cases h : -160 < z
      · show spacedBy20
          (z :: if -160 < z then (z - 20) :: extendSegsAux n (z - 20) else []) = true
        rw [if_pos h]
        show (decide (z - 20 = z - 20)
          && spacedBy20 ((z - 20) :: extendSegsAux n (z - 20))) = true
        exact bool_and_join (decide_eq_true rfl) (spaced_cons_extendAux n (z - 20))
      · show spacedBy20
          (z :: if -160 < z then (z - 20) :: extendSegsAux n (z - 20) else []) = true
        rw [if_neg h]
        rfl

/-- The extension output, seeded with the farthest position, is spaced. -/
lemma spaced_cons_extend (z : ℚ) : spacedBy20 (z :: extendSegs z) = true :=
  spaced_cons_extendAux (extendCount z) z

/-- With enough fuel the extension loop runs until the last created
position is at or beyond -160. -/
lemma extendAux_last :
    ∀ (n : ℕ) (z : ℚ), extendCount z ≤ n →
      List.getLastD (extendSegsAux n z) z ≤ -160
  | 0, z, hn => by
      have h0 : extendCount z = 0 := Nat.le_zero.mp hn
      have h1 : ⌈(z + 160) / 20⌉ ≤ 0 := Int.toNat_eq_zero.mp h0
      have h2 : (z + 160) / 20 ≤ 0 := by exact_mod_cast Int.ceil_le.mp h1
      have h3 : z + 160 ≤ 0 := by nlinarith
      simpa [extendSegsAux] using by linarith
  | n + 1, z, hn => by
      by_cases h : -160 < z
      · rw [extendSegsAux, if_pos h, List.getLastD_cons]
        have hc : extendCount (z - 20) ≤ n := by
          have := extendCount_pos z h
          omega
        exact extendAux_last n (z - 20) hc
      · simp only [extendSegsAux, if_neg h, List.getLastD]
        linarith [not_lt.mp h]

/-- After the extension loop the farthest position is at or beyond -160. -/
lemma extendSegs_last (z : ℚ) : List.getLastD (extendSegs z) z ≤ -160 :=
  extendAux_last (extendCount z) z (le_refl _)

/-- Scrolling every segment by the same distance keeps the spacing. -/
lemma spacedBy20_map_add :
    ∀ (l : List ℚ) (m : ℚ),
      spacedBy20 (l.map (fun z => z + m)) = spacedBy20 l
  | [], _ => rfl
  | [_], _ => rfl
  | a :: b :: t, m => by
      show (decide (b + m = a + m - 20) && spacedBy20 ((b :: t).map (fun z => z + m)))
          = (decide (b = a - 20) && spacedBy20 (b :: t))
      rw [spacedBy20_map_add (b :: t) m]
      congr 1
      exact decide_eq_decide.mpr ⟨fun hq => by linarith, fun hq => by linarith⟩

/-- Dropping the front segment keeps the spacing. -/
lemma spacedBy20_tail (l : List ℚ) (h : spacedBy20 l = true) :
    spacedBy20 l.tail = true := by
  match l with
  | [] => rfl
  | [_] => rfl
  | a :: b :: t =>
      exact (bool_and_split h).2

/-- `getLastD` ignores the default on a nonempty list. -/
lemma getLastD_irrel (l : List ℚ) (h : l ≠ []) (d d' : ℚ) :
    List.getLastD l d = List.getLastD l d' := by
  match l with
  | [] => exact absurd rfl h
  | x :: xs => rw [List.getLastD_cons, List.getLastD_cons]

/-- `getLastD` of an append with a nonempty right part. -/
lemma getLastD_append_right :
    ∀ (l1 l2 : List ℚ), l2 ≠ [] → ∀ d : ℚ,
      List.getLastD (l1 ++ l2) d = List.getLastD l2 d
  | [], l2, _, d => rfl
  | a :: t, l2, h, d => by
      rw [List.cons_append, List.getLastD_cons, getLastD_append_right t l2 h a]
      exact getLastD_irrel l2 h a d

/-- Extending a spaced list from its own last position stays spaced. -/
lemma spacedBy20_append :
    ∀ (l : List ℚ) (z : ℚ), spacedBy20 l = true →
      List.getLastD l 0 = z → spacedBy20 (l ++ extendSegs z) = true
  | [], z, _, hlast => by
      have hz : z = 0 := hlast.symm
      subst hz
      have h0 := spaced_cons_extend 0
      simpa using spacedBy20_tail (0 :: extendSegs 0) h0
  | [a], z, _, hlast => by
      have hz : z = a := by simpa [List.getLastD] using hlast.symm
      subst hz
      simpa using spaced_cons_extend z
  | a :: b :: t, z, h, hlast => by
      obtain ⟨h1, h2⟩ := bool_and_split h
      have hlast2 : List.getLastD (b :: t) 0 = z := by
        rw [List.getLastD_cons] at hlast
        rw [← getLastD_irrel (b :: t) (List.cons_ne_nil b t) a 0]
        exact hlast
      show (decide (b = a - 20) && spacedBy20 ((b :: t) ++ extendSegs z)) = true
      exact bool_and_join h1 (spacedBy20_append (b :: t) z h2 hlast2)

/-- Appending the extension of a spaced window keeps it spaced. -/
lemma tick_append_spaced (l : List ℚ) (h : spacedBy20 l = true) :
    spacedBy20 (l ++ extendSegs (List.getLastD l 0)) = true :=
  spacedBy20_append l _ h rfl

/-- After extending from the window's own last position, the last position
is at or beyond -160. -/
lemma tick_append_last (l : List ℚ) :
    List.getLastD (l ++ extendSegs (List.getLastD l 0)) 0 ≤ -160 := by
  by_cases hz : -160 < List.getLastD l 0
  · have hne : extendSegs (List.getLastD l 0) ≠ [] := by
      rw [extendSegs_go _ hz]
      exact List.cons_ne_nil _ _
    rw [getLastD_append_right l _ hne 0]
    calc List.getLastD (extendSegs (List.getLastD l 0)) 0
        = List.getLastD (extendSegs (List.getLastD l 0)) (List.getLastD l 0) :=
          getLastD_irrel _ hne 0 _
      _ ≤ -160 := extendSegs_last _
  · rw [extendSegs_stop _ hz, List.append_nil]
    exact not_lt.mp hz

/-- The `initWorld` loop runs 12 iterations (80 down to -140). -/
lemma extendCount_80 : extendCount 80 = 12 := by
  rw [extendCount, show ((80:ℚ) + 160) / 20 = 12 by norm_num]
  simp

/-- The initial segment window is spaced by exactly one segment length. -/
lemma initSegs_spaced : spacedBy20 initSegs = true := by
  rw [initSegs, extendCount_80]
  decide

/-- C8: a tick of the segment streamer preserves exact 20-unit spacing of
consecutive segments (established by `initWorld` and so holding ever
after), ends with the farthest segment at or beyond z = -160, and every
newly created segment sits at the previous farthest position minus the
segment length. -/
theorem c8_segment_window (segs : List ℚ) (m : ℚ) (h : spacedBy20 segs = true) :
    spacedBy20 (tickSegs segs m) = true
    ∧ List.getLastD (tickSegs segs m) 0 ≤ -160
    ∧ spacedBy20 initSegs = true
    ∧ ∀ z : ℚ, -160 < z → (extendSegs z).headD 0 = z - 20 := by
  have hmoved : spacedBy20 (segs.map (fun z => z + m)) = true := by
    rw [spacedBy20_map_add]
    exact h
  have hpruned : spacedBy20 (if 80 < (segs.map (fun z => z + m)).headD 0
      then (segs.map (fun z => z + m)).tail
      else segs.map (fun z => z + m)) = true := by
    split_ifs
    · exact spacedBy20_tail _ hmoved
    · exact hmoved
  refine ⟨?_, ?_, initSegs_spaced, fun z hz => ?_⟩
  · exact tick_append_spaced _ hpruned
  · exact tick_append_last _
  · rw [extendSegs_go z hz]
    rfl

/-- C8, witness: one tick from the initial window with scroll distance 5. -/
theorem c8_witness :
    spacedBy20 (tickSegs initSegs 5) = true
    ∧ List.getLastD (tickSegs initSegs 5) 0 ≤ -160
    ∧ (extendSegs 0).headD 0 = 0 - 20 :=
  ⟨(c8_segment_window initSegs 5 initSegs_spaced).1,
   (c8_segment_window initSegs 5 initSegs_spaced).2.1,
   (c8_segment_window initSegs 5 initSegs_spaced).2.2.2 0 (by norm_num)⟩

/-- The nested draw yields FULL exactly on the second draw's (3/5, …]
region. -/
lemma subtypeDraw_eq_full {α : Type} [LinearOrderedField α] (r2 r3 : α) :
    subtypeDraw r2 r3 = ObstacleType.FULL ↔ 3/5 < r2 := by
  unfold subtypeDraw
  split_ifs with h1 h2
  · exact iff_of_true rfl h1
  · exact iff_of_false (by simp) h1
  · exact iff_of_false (by simp) h1

/-- The nested draw yields JUMP on the short-circuited region. -/
lemma subtypeDraw_eq_jump {α : Type} [LinearOrderedField α] (r2 r3 : α) :
    subtypeDraw r2 r3 = ObstacleType.JUMP ↔ r2 ≤ 3/5 ∧ 1/2 < r3 := by
  unfold subtypeDraw
  split_ifs with h1 h2
  · exact iff_of_false (by simp) (fun hc => absurd h1 (not_lt.mpr hc.1))
  · exact iff_of_true rfl ⟨not_lt.mp h1, h2⟩
  · exact iff_of_false (by simp) (fun hc => h2 hc.2)

/-- The nested draw yields SLIDE on the remaining region. -/
lemma subtypeDraw_eq_slide {α : Type} [LinearOrderedField α] (r2 r3 : α) :
    subtypeDraw r2 r3 = ObstacleType.SLIDE ↔ r2 ≤ 3/5 ∧ r3 ≤ 1/2 := by
  unfold subtypeDraw
  split_ifs with h1 h2
  · exact iff_of_false (by simp) (fun hc => absurd h1 (not_lt.mpr hc.1))
  · exact iff_of_false (by simp) (fun hc => absurd h2 (not_lt.mpr hc.2))
  · exact iff_of_true rfl ⟨not_lt.mp h1, not_lt.mp h2⟩

/-- The FULL region of the unit square is the product (3/5, 1) × [0, 1). -/
lemma full_region :
    {p : ℝ × ℝ | p.1 ∈ Set.Ico (0:ℝ) 1 ∧ p.2 ∈ Set.Ico (0:ℝ) 1
      ∧ subtypeDraw p.1 p.2 = ObstacleType.FULL}
    = Set.Ioo (3/5 : ℝ) 1 ×ˢ Set.Ico (0:ℝ) 1 := by
  ext p
  simp only [Set.mem_setOf_eq, Set.mem_prod, Set.mem_Ico, Set.mem_Ioo,
    subtypeDraw_eq_full]
  constructor
  · rintro ⟨⟨_, h2⟩, h3, h4⟩
    exact ⟨⟨h4, h2⟩, h3⟩
  · rintro ⟨⟨h4, h2⟩, h3⟩
    exact ⟨⟨by linarith, h2⟩, h3, h4⟩

/-- The JUMP region of the unit square is [0, 3/5] × (1/2, 1). -/
lemma jump_region :
    {p : ℝ × ℝ | p.1 ∈ Set.Ico (0:ℝ) 1 ∧ p.2 ∈ Set.Ico (0:ℝ) 1
      ∧ subtypeDraw p.1 p.2 = ObstacleType.JUMP}
    = Set.Icc (0:ℝ) (3/5) ×ˢ Set.Ioo (1/2 : ℝ) 1 := by
  ext p
  simp only [Set.mem_setOf_eq, Set.mem_prod, Set.mem_Ico, Set.mem_Ioo,
    Set.mem_Icc, subtypeDraw_eq_jump]
  constructor
  · rintro ⟨⟨h1, _⟩, ⟨_, h4⟩, h5, h6⟩
    exact ⟨⟨h1, h5⟩, h6, h4⟩
  · rintro ⟨⟨h1, h5⟩, h6, h4⟩
    exact ⟨⟨h1, by linarith⟩, ⟨by linarith, h4⟩, h5, h6⟩

/-- The SLIDE region of the unit square is [0, 3/5] × [0, 1/2]. -/
lemma slide_region :
    {p : ℝ × ℝ | p.1 ∈ Set.Ico (0:ℝ) 1 ∧ p.2 ∈ Set.Ico (0:ℝ) 1
      ∧ subtypeDraw p.1 p.2 = ObstacleType.SLIDE}
    = Set.Icc (0:ℝ) (3/5) ×ˢ Set.Icc (0:ℝ) (1/2) := by
  ext p
  simp only [Set.mem_setOf_eq, Set.mem_prod, Set.mem_Ico, Set.mem_Icc,
    subtypeDraw_eq_slide]
  constructor
  · rintro ⟨⟨h1, _⟩, ⟨h3, _⟩, h5, h6⟩
    exact ⟨⟨h1, h5⟩, h3, h6⟩
  · rintro ⟨⟨h1, h5⟩, h3, h6⟩
    exact ⟨⟨h1, by linarith⟩, ⟨h3, by linarith⟩, h5, h6⟩

/-- The lane draw's three fibers over [0, 1) are thirds of the interval. -/
lemma lane_region (k : ℤ) (hk : k = 0 ∨ k = 1 ∨ k = 2) :
    {r : ℝ | r ∈ Set.Ico (0:ℝ) 1 ∧ laneDraw r = k}
    = Set.Ico ((k : ℝ) / 3) (((k : ℝ) + 1) / 3) := by
  ext r
  simp only [Set.mem_setOf_eq, Set.mem_Ico, laneDraw, Int.floor_eq_iff]
  rcases hk with hk | hk | hk <;> subst hk <;> push_cast <;>
    exact ⟨fun h => ⟨by linarith [h.1.1, h.1.2, h.2.1, h.2.2],
                     by linarith [h.1.1, h.1.2, h.2.1, h.2.2]⟩,
           fun h => ⟨⟨by linarith [h.1, h.2], by linarith [h.1, h.2]⟩,
                     by linarith [h.1, h.2], by linarith [h.1, h.2]⟩⟩

/-- Volume of a planar product of intervals. -/
lemma vol_prod_Ioo_Ico (a b c d : ℝ) :
    MeasureTheory.volume (Set.Ioo a b ×ˢ Set.Ico c d)
      = ENNReal.ofReal (b - a) * ENNReal.ofReal (d - c) := by
  rw [MeasureTheory.Measure.volume_eq_prod, MeasureTheory.Measure.prod_prod,
    Real.volume_Ioo, Real.volume_Ico]

/-- Volume of a planar product of intervals. -/
lemma vol_prod_Icc_Ioo (a b c d : ℝ) :
    MeasureTheory.volume (Set.Icc a b ×ˢ Set.Ioo c d)
      = ENNReal.ofReal (b - a) * ENNReal.ofReal (d - c) := by
  rw [MeasureTheory.Measure.volume_eq_prod, MeasureTheory.Measure.prod_prod,
    Real.volume_Icc, Real.volume_Ioo]

/-- Volume of a planar product of intervals. -/
lemma vol_prod_Icc_Icc (a b c d : ℝ) :
    MeasureTheory.volume (Set.Icc a b ×ˢ Set.Icc c d)
      = ENNReal.ofReal (b - a) * ENNReal.ofReal (d - c) := by
  rw [MeasureTheory.Measure.volume_eq_prod, MeasureTheory.Measure.prod_prod,
    Real.volume_Icc, Real.volume_Icc]

/-- C4: in the single-obstacle layout the subtype draw realizes exactly
the regions FULL = (3/5, 1], JUMP = [0, 3/5] × (1/2, 1), SLIDE =
[0, 3/5] × [0, 1/2] of the two nested uniform draws, whose probabilities
(Lebesgue measure within the unit square of draws) are exactly 2/5, 3/10
and 3/10; and the lane draw ⌊r·3⌋ splits [0, 1) into three fibers of
measure 1/3 each. -/
theorem c4_subtype_probabilities :
    (∀ r2 r3 : ℚ, (subtypeDraw r2 r3 = ObstacleType.FULL ↔ 3/5 < r2)
      ∧ (subtypeDraw r2 r3 = ObstacleType.JUMP ↔ r2 ≤ 3/5 ∧ 1/2 < r3)
      ∧ (subtypeDraw r2 r3 = ObstacleType.SLIDE ↔ r2 ≤ 3/5 ∧ r3 ≤ 1/2))
    ∧ MeasureTheory.volume {p : ℝ × ℝ | p.1 ∈ Set.Ico (0:ℝ) 1
        ∧ p.2 ∈ Set.Ico (0:ℝ) 1 ∧ subtypeDraw p.1 p.2 = ObstacleType.FULL}
        = ENNReal.ofReal (2/5)
    ∧ MeasureTheory.volume {p : ℝ × ℝ | p.1 ∈ Set.Ico (0:ℝ) 1
        ∧ p.2 ∈ Set.Ico (0:ℝ) 1 ∧ subtypeDraw p.1 p.2 = ObstacleType.JUMP}
        = ENNReal.ofReal (3/10)
    ∧ MeasureTheory.volume {p : ℝ × ℝ | p.1 ∈ Set.Ico (0:ℝ) 1
        ∧ p.2 ∈ Set.Ico (0:ℝ) 1 ∧ subtypeDraw p.1 p.2 = ObstacleType.SLIDE}
        = ENNReal.ofReal (3/10)
    ∧ MeasureTheory.volume {r : ℝ | r ∈ Set.Ico (0:ℝ) 1 ∧ laneDraw r = 0}
        = ENNReal.ofReal (1/3)
    ∧ MeasureTheory.volume {r : ℝ | r ∈ Set.Ico (0:ℝ) 1 ∧ laneDraw r = 1}
        = ENNReal.ofReal (1/3)
    ∧ MeasureTheory.volume {r : ℝ | r ∈ Set.Ico (0:ℝ) 1 ∧ laneDraw r = 2}
        = ENNReal.ofReal (1/3) := by
  refine ⟨fun r2 r3 => ⟨subtypeDraw_eq_full r2 r3, subtypeDraw_eq_jump r2 r3,
      subtypeDraw_eq_slide r2 r3⟩, ?_, ?_, ?_, ?_, ?_, ?_⟩
  · rw [full_region, vol_prod_Ioo_Ico]
    rw [show (1:ℝ) - 3/5 = 2/5 by norm_num, show (1:ℝ) - 0 = 1 by norm_num,
      ENNReal.ofReal_one, mul_one]
  · rw [jump_region, vol_prod_Icc_Ioo, ← ENNReal.ofReal_mul (by norm_num)]
    norm_num
  · rw [slide_region, vol_prod_Icc_Icc, ← ENNReal.ofReal_mul (by norm_num)]
    norm_num
  · rw [lane_region 0 (Or.inl rfl), Real.volume_Ico]
    norm_num
  · rw [lane_region 1 (Or.inr (Or.inl rfl)), Real.volume_Ico]
    norm_num
  · rw [lane_region 2 (Or.inr (Or.inr rfl)), Real.volume_Ico]
    norm_num

end RunRun
